import Mathlib

/-!
Verification development for the zk-pret-v3-mcp-server repository.

This file gives a shallow embedding, in Lean 4, of the Tool Registry and
Request Dispatch core of the repository, together with the network/wallet
context and the CLI/environment configuration code, and proves or refutes
the specification claims about them.

Embedded source units:
* `ToolRegistry` (category-indexed variant) with `registerTool`,
  `registerTools`, `getTool`, `getToolCount`, `getToolsByCategory`,
  `validateTool` — from `src/server/tool-registry.ts`.
* `ZKPRETMCPServer.handleToolCall` — the dispatch chain over the fixed
  sequence of tool-handler groups, from `src/server/zkpret-mcp-server.ts`.
* The zod `DeployContractSchema` required-field/enumeration validation run
  inside `handleDeployContract`, from
  `src/server/tool-handlers/contract_tools.ts`.
* `NetworkConfig` (four networks: local, devnet, testnet, mainnet) and the
  `WalletManager` with `switchNetwork`, `getCurrentNetwork` and
  `getFaucetTokens`, from `src/config/network-config.ts` and
  `src/services/wallet/wallet-manager.ts`.
* The o1js `WalletManager.switchNetwork` of the `pretmcpservermina`
  sub-project, from
  `src/pretmcpservermina/src/services/wallet/wallet-manager.ts`, together
  with the static `MinaNetworkConfig` table it consults.
* `parseArgs` / env-override logic and the auto-detect `main` selection of
  transport and network, from the entry point `src/index.ts`.

JavaScript `Map<string, V>` objects are modelled as insertion-ordered
association lists with set-replaces-in-place semantics, matching
`Map.set` / `Map.get` / `Map.has` / `Map.prototype.size`.
-/

namespace ZkPret

/-- A JSON-like value, modelling the untyped `any` argument objects and
`inputSchema` values that flow through the server. Objects are ordered
field lists, as in JavaScript. -/
inductive JVal where
  | null
  | bool (b : Bool)
  | num (n : Int)
  | str (s : String)
  | arr (xs : List JVal)
  | obj (fields : List (String × JVal))

/-- JavaScript truthiness of a `JVal` (used by `if (x)`-style checks in the
source: `null`, `false`, `0` and the empty string are falsy). -/
def jsTruthy : JVal → Bool
  | .null => false
  | .bool b => b
  | .num n => n ≠ 0
  | .str s => s ≠ ""
  | .arr _ => true
  | .obj _ => true

/-- Whether `typeof x === 'object'` holds in JavaScript for the value
(objects, arrays and `null` all answer `'object'`). -/
def jsTypeofObject : JVal → Bool
  | .obj _ => true
  | .arr _ => true
  | .null => true
  | _ => false

/-- `Map.get`: first binding of the key in the insertion-ordered list. -/
def mapLookup (m : List (String × α)) (k : String) : Option α :=
  match m with
  | [] => none
  | (k', v) :: rest => if k' = k then some v else mapLookup rest k

/-- `Map.has`. -/
def mapContains (m : List (String × α)) (k : String) : Bool :=
  (mapLookup m k).isSome

/-- `Map.set`: replace the value in place when the key is present,
otherwise append a new binding at the end (JavaScript `Map` keeps the
original insertion position on overwrite). -/
def mapSet (m : List (String × α)) (k : String) (v : α) : List (String × α) :=
  match m with
  | [] => [(k, v)]
  | (k', v') :: rest => if k' = k then (k', v) :: rest else (k', v') :: mapSet rest k v

/-- In-place `array.push` on the list stored under a key (used for the
category index: `this.categories.get(category)!.push(name)`). Keys not
present are left untouched. -/
def mapPush (m : List (String × List String)) (k : String) (v : String) :
    List (String × List String) :=
  match m with
  | [] => []
  | (k', l) :: rest => if k' = k then (k', l ++ [v]) :: rest else (k', l) :: mapPush rest k v

theorem mapLookup_mapSet_self (m : List (String × α)) (k : String) (v : α) :
    mapLookup (mapSet m k v) k = some v := by
  induction m with
  | nil => simp [mapSet, mapLookup]
  | cons hd tl ih =>
    obtain ⟨k', v'⟩ := hd
    by_cases h : k' = k <;> simp [mapSet, mapLookup, h, ih]

theorem mapLookup_mapSet_ne (m : List (String × α)) (k k' : String) (v : α)
    (h : k' ≠ k) : mapLookup (mapSet m k v) k' = mapLookup m k' := by
  induction m with
  | nil =>
    simp only [mapSet, mapLookup]
    rw [if_neg (Ne.symm h)]
  | cons hd tl ih =>
    obtain ⟨k₀, v₀⟩ := hd
    by_cases h₀ : k₀ = k
    · subst h₀
      simp only [mapSet, if_pos rfl, mapLookup]
      rw [if_neg (Ne.symm h), if_neg (Ne.symm h)]
    · simp only [mapSet, if_neg h₀, mapLookup]
      by_cases h₁ : k₀ = k'
      · rw [if_pos h₁, if_pos h₁]
      · rw [if_neg h₁, if_neg h₁]
        exact ih

theorem length_mapSet_of_contains (m : List (String × α)) (k : String) (v : α)
    (h : mapContains m k = true) : (mapSet m k v).length = m.length := by
  induction m with
  | nil => simp [mapContains, mapLookup] at h
  | cons hd tl ih =>
    obtain ⟨k₀, v₀⟩ := hd
    by_cases h₀ : k₀ = k
    · simp [mapSet, h₀]
    · simp only [mapContains, mapLookup, h₀, if_neg] at h
      simp [mapSet, h₀, ih h]

theorem mapContains_mapSet_of_contains (m : List (String × α)) (k k' : String) (v : α)
    (h : mapContains m k' = true) : mapContains (mapSet m k v) k' = true := by
  by_cases hk : k' = k
  · subst hk
    simp [mapContains, mapLookup_mapSet_self]
  · simpa [mapContains, mapLookup_mapSet_ne m k k' v hk] using h

theorem mapContains_mapSet_self (m : List (String × α)) (k : String) (v : α) :
    mapContains (mapSet m k v) k = true := by
  simp [mapContains, mapLookup_mapSet_self]

theorem mapLookup_mapPush_self (m : List (String × List String)) (k : String)
    (v : String) (l : List String) (h : mapLookup m k = some l) :
    mapLookup (mapPush m k v) k = some (l ++ [v]) := by
  induction m with
  | nil => simp [mapLookup] at h
  | cons hd tl ih =>
    obtain ⟨k₀, l₀⟩ := hd
    by_cases h₀ : k₀ = k
    · subst h₀
      simp only [mapLookup, if_pos rfl] at h
      injection h with h
      subst h
      simp [mapPush, mapLookup]
    · simp only [mapLookup, if_neg h₀] at h
      simp [mapPush, mapLookup, h₀, ih h]

theorem mapContains_iff_mem_keys (m : List (String × α)) (k : String) :
    mapContains m k = true ↔ k ∈ m.map (·.1) := by
  induction m with
  | nil => simp [mapContains, mapLookup]
  | cons hd tl ih =>
    obtain ⟨k₀, v₀⟩ := hd
    by_cases h₀ : k₀ = k
    · subst h₀
      simp [mapContains, mapLookup]
    · have hstep : mapContains ((k₀, v₀) :: tl) k = mapContains tl k := by
        simp [mapContains, mapLookup, h₀]
      rw [hstep, ih]
      simp only [List.map_cons, List.mem_cons]
      constructor
      · intro hmem
        exact Or.inr hmem
      · rintro (hmem | hmem)
        · exact absurd hmem.symm h₀
        · exact hmem

/-- An MCP tool definition as stored in the registry: `name`,
`description` and the (optional, untyped) `inputSchema` JSON value. -/
structure Tool where
  name : String
  description : String
  inputSchema : Option JVal

/-- A registry entry: `{ name, handler, tool }` as built by
`ToolRegistry.registerTool`. Handlers are opaque values of type `α`
(the source stores arbitrary async functions). -/
structure ToolHandlerEntry (α : Type) where
  name : String
  handler : α
  tool : Tool

/-- The category-indexed `ToolRegistry`: a name-keyed `Map` of entries and
a category-keyed `Map` of name arrays. -/
structure ToolRegistry (α : Type) where
  tools : List (String × ToolHandlerEntry α)
  categories : List (String × List String)

/-- A freshly constructed `ToolRegistry` (both maps empty). -/
def emptyRegistry : ToolRegistry α := ⟨[], []⟩

/-- `extractCategory`: the part of the tool name before the first `_`
separator (`toolName.split('_')[0]`), with the falsy empty string
replaced by `'general'`. -/
def extractCategory (toolName : String) : String :=
  let first : String := ⟨toolName.data.takeWhile (fun c => c ≠ '_')⟩
  if first = "" then "general" else first

/-- `ToolRegistry.registerTool`: unconditionally `Map.set` the entry under
its name, ensure the category bucket exists, and `push` the name onto the
bucket. There is no duplicate check and no failure path: the return type
of the source method is `void`. -/
def ToolRegistry.registerTool (t : Tool) (h : α) (reg : ToolRegistry α) :
    ToolRegistry α :=
  let entry : ToolHandlerEntry α := ⟨t.name, h, t⟩
  let tools' := mapSet reg.tools t.name entry
  let cat := extractCategory t.name
  let cats0 := if mapContains reg.categories cat then reg.categories
               else mapSet reg.categories cat []
  ⟨tools', mapPush cats0 cat t.name⟩

/-- `ToolRegistry.registerTools`: register a batch by calling
`registerTool` on each element in order; no validation, no rollback. -/
def ToolRegistry.registerTools (batch : List (Tool × α)) (reg : ToolRegistry α) :
    ToolRegistry α :=
  batch.foldl (fun r p => ToolRegistry.registerTool p.1 p.2 r) reg

/-- `ToolRegistry.getTool`. -/
def ToolRegistry.getTool (reg : ToolRegistry α) (name : String) :
    Option (ToolHandlerEntry α) :=
  mapLookup reg.tools name

/-- `ToolRegistry.hasTool`. -/
def ToolRegistry.hasTool (reg : ToolRegistry α) (name : String) : Bool :=
  mapContains reg.tools name

/-- `ToolRegistry.getToolCount` (`this.tools.size`; the model's name list
never holds a key twice because `mapSet` replaces in place). -/
def ToolRegistry.getToolCount (reg : ToolRegistry α) : Nat :=
  reg.tools.length

/-- `ToolRegistry.getToolsByCategory`: read the name bucket for the
category, resolve each name through the name map, drop the unresolved
ones, and return the tool definitions. -/
def ToolRegistry.getToolsByCategory (reg : ToolRegistry α) (category : String) :
    List Tool :=
  (((mapLookup reg.categories category).getD []).filterMap
    (fun n => mapLookup reg.tools n)).map (·.tool)

/-- `ToolRegistry.validateTool`: the list of error strings the source
accumulates. The duplicate-name check happens only here — `registerTool`
never invokes this method (only `importToolDefinitions` does). -/
def ToolRegistry.validateTool (t : Tool) (reg : ToolRegistry α) : List String :=
  (if t.name = "" then ["Tool name must be a non-empty string"] else []) ++
  (if t.description = "" then ["Tool description must be a non-empty string"] else []) ++
  (if t.name ≠ "" ∧ ToolRegistry.hasTool reg t.name then
    ["Tool with name " ++ t.name ++ " already exists"] else []) ++
  (match t.inputSchema with
   | some s => if jsTruthy s && !jsTypeofObject s then
       ["Tool inputSchema must be a valid JSON schema object"] else []
   | none => [])

/-- The MCP `CallToolResult` wire value: a list of text contents plus the
`isError` flag. This is the only response shape `handleToolCall` ever
produces — there is no `ok`/`errorKind` discriminator field. -/
structure CallToolResult where
  content : List String
  isError : Bool
deriving DecidableEq

/-- A thrown JavaScript `Error`: `message` plus the stack text attached to
the fault object. -/
structure Fault where
  message : String
  stack : String

/-- What a handler invocation does with the shared context state `σ`:
return a `CallToolResult` (success or handler-reported failure, both
normal returns) or throw a fault. Either way the state mutations made
before returning/throwing persist. -/
inductive HandlerOutcome (σ : Type) where
  | ret (r : CallToolResult) (st : σ)
  | thr (f : Fault) (st : σ)

/-- A tool handler: raw arguments and current shared state in, outcome
out. -/
abbrev Handler (σ : Type) := JVal → σ → HandlerOutcome σ

/-- One tool-handler group (`ContractToolHandlers`, `WalletToolHandlers`,
…): its name-to-handler table. `hasTool` is membership in the table and
`handleTool` runs the table entry, exactly as in the group classes. -/
abbrev ToolGroup (σ : Type) := List (String × Handler σ)

/-- `group.hasTool(name)`. -/
def ToolGroup.hasTool (g : ToolGroup σ) (name : String) : Bool :=
  mapContains g name

/-- The `if/else-if` chain of `handleToolCall` over the fixed sequence of
handler groups: the first group whose `hasTool` answers true wins. -/
def findGroup (gs : List (ToolGroup σ)) (name : String) : Option (ToolGroup σ) :=
  gs.find? (fun g => g.hasTool name)

/-- The envelope built by the catch-all of `handleToolCall`:
`{ content: [{type:'text', text: 'Error executing <tool>: <message>'}],
isError: true }`. The same single catch handles the unknown-tool throw,
the group-level `Tool not found` throw and any fault a handler raises. -/
def errorEnvelope (toolName msg : String) : CallToolResult :=
  { content := ["Error executing " ++ toolName ++ ": " ++ msg], isError := true }

/-- The outcome of one dispatched call: the response envelope, the shared
state afterwards, and whether any handler body was entered
(`handlerRan` instruments the control flow of the source: it is true
exactly on the paths where `handleTool` reached a handler function). -/
structure DispatchResult (σ : Type) where
  result : CallToolResult
  state : σ
  handlerRan : Bool

/-- `ZKPRETMCPServer.handleToolCall`: route by the `hasTool` chain; a miss
throws `Unknown tool: <name>` which the catch converts to an error
envelope; a hit runs the group's handler on the raw arguments (no
argument validation happens in the dispatcher); a handler fault is caught
by the same catch. -/
def handleToolCall (gs : List (ToolGroup σ)) (toolName : String) (args : JVal)
    (st : σ) : DispatchResult σ :=
  match findGroup gs toolName with
  | none => ⟨errorEnvelope toolName ("Unknown tool: " ++ toolName), st, false⟩
  | some g =>
    match mapLookup g toolName with
    | none => ⟨errorEnvelope toolName ("Tool not found: " ++ toolName), st, false⟩
    | some h =>
      match h args st with
      | .ret r st' => ⟨r, st', true⟩
      | .thr f st' => ⟨errorEnvelope toolName f.message, st', true⟩

/-- The `contractType` enumeration of the zod `DeployContractSchema`. -/
def deployContractTypes : List String :=
  ["compliance", "gleif", "exim", "bpmn", "actus", "data_integrity"]

/-- The `network` enumeration of the zod `DeployContractSchema`. -/
def deployNetworks : List String := ["local", "devnet", "testnet", "mainnet"]

/-- Read a field of a JSON object argument value. -/
def getField (args : JVal) (k : String) : Option JVal :=
  match args with
  | .obj fields => mapLookup fields k
  | _ => none

/-- The required-field and enumeration portion of
`DeployContractSchema.parse`: `contractType` and `network` must be
present string fields drawn from their enumerations (this is also exactly
what the tool's declared `inputSchema` marks as required). -/
def deploySchemaOk (args : JVal) : Bool :=
  match getField args "contractType", getField args "network" with
  | some (.str ct), some (.str nw) =>
    deployContractTypes.contains ct && deployNetworks.contains nw
  | _, _ => false

/-- `handleDeployContract`: the handler body first runs the zod schema
parse on its raw arguments; a schema violation is caught by the handler's
own try/catch and reported as an `isError` envelope. The success and
failure texts are abbreviated; the placement of the validation inside the
handler is the faithful part. -/
def deployHandler {σ : Type} : Handler σ := fun args st =>
  if deploySchemaOk args then
    .ret { content := ["Contract deployed successfully"], isError := false } st
  else
    .ret { content := ["Contract deployment failed: invalid arguments"], isError := true } st

/-- The `ServerConfig` record filled by `parseArgs`. -/
structure ServerConfig where
  mode : String
  port : Nat
  host : String
  logLevel : String
deriving DecidableEq

/-- The defaults `parseArgs` starts from. -/
def defaultServerConfig : ServerConfig :=
  { mode := "stdio", port := 3000, host := "localhost", logLevel := "info" }

/-- The accepted `--log-level` / `LOG_LEVEL` values. -/
def validLogLevels : List String := ["debug", "info", "warn", "error"]

/-- JavaScript `parseInt` restricted to the non-negative decimal shapes
that occur here: the longest leading digit run, `none` for `NaN`. -/
def jsParseIntNat (s : String) : Option Nat :=
  let ds := s.data.takeWhile Char.isDigit
  if ds = [] then none
  else some (ds.foldl (fun n c => n * 10 + (c.toNat - '0'.toNat)) 0)

/-- The `for` loop of `parseArgs` over `process.argv.slice(2)`: each flag
consumes the following argument (`args[++i]`); unrecognized or invalid
values leave the current setting untouched, `parseInt(x) || 3000` turns a
missing/zero/unparsable port into 3000, `args[++i] || 'localhost'` turns
a missing/empty host into `'localhost'`, and `--help` prints usage and
exits the process (modelled as `none`). -/
def parseCliLoop : List String → ServerConfig → Option ServerConfig
  | [], c => some c
  | "--mode" :: rest, c =>
    match rest with
    | [] => some c
    | m :: rest' =>
      parseCliLoop rest' (if m = "stdio" || m = "sse" then { c with mode := m } else c)
  | "--port" :: rest, c =>
    match rest with
    | [] => some { c with port := 3000 }
    | p :: rest' =>
      let n := match jsParseIntNat p with
        | some n => if n = 0 then 3000 else n
        | none => 3000
      parseCliLoop rest' { c with port := n }
  | "--host" :: rest, c =>
    match rest with
    | [] => some { c with host := "localhost" }
    | hst :: rest' =>
      parseCliLoop rest' { c with host := if hst = "" then "localhost" else hst }
  | "--log-level" :: rest, c =>
    match rest with
    | [] => some c
    | l :: rest' =>
      parseCliLoop rest' (if validLogLevels.contains l then { c with logLevel := l } else c)
  | "--help" :: _, _ => none
  | _ :: rest, c => parseCliLoop rest c

/-- The environment variables read by `parseArgs`. -/
structure CliEnv where
  mcpServerMode : Option String
  portVar : Option String
  logLevel : Option String

/-- JavaScript truthiness of an environment variable: unset and empty
both fail an `if (process.env.X)` check. -/
def envTruthy : Option String → Option String
  | some s => if s = "" then none else some s
  | none => none

/-- The environment-variable override block of `parseArgs`, which runs
AFTER the CLI flag loop: `MCP_SERVER_MODE`, `PORT` and `LOG_LEVEL`
overwrite whatever the flags set (there is no `HOST` override). -/
def applyEnvOverrides (env : CliEnv) (c : ServerConfig) : ServerConfig :=
  let c1 := match envTruthy env.mcpServerMode with
    | some m => if m = "stdio" || m = "sse" then { c with mode := m } else c
    | none => c
  let c2 := match envTruthy env.portVar with
    | some p =>
      { c1 with port := match jsParseIntNat p with
        | some n => if n = 0 then c1.port else n
        | none => c1.port }
    | none => c1
  match envTruthy env.logLevel with
  | some l => if validLogLevels.contains l then { c2 with logLevel := l } else c2
  | none => c2

/-- `parseArgs`: CLI flag loop from the defaults, then the environment
override block; `none` when `--help` ended the process. -/
def parseArgs (argv : List String) (env : CliEnv) : Option ServerConfig :=
  (parseCliLoop argv defaultServerConfig).map (applyEnvOverrides env)

/-- The environment variables read by the auto-detect `main`. -/
structure MainEnv where
  mcpTransport : Option String
  minaNetwork : Option String

/-- The network names the auto-detect `main` recognizes on the command
line. -/
def mainNetworkNames : List String := ["local", "devnet", "testnet", "mainnet"]

/-- Transport selection of the auto-detect `main`: the first positional
`stdio`/`sse` argument wins, else `MCP_TRANSPORT`, else TTY detection. -/
def pickTransport (argv : List String) (env : MainEnv) (isTTY : Bool) : String :=
  match argv.find? (fun a => a = "stdio" || a = "sse") with
  | some t => t
  | none =>
    match envTruthy env.mcpTransport with
    | some t => t
    | none => if isTTY then "stdio" else "sse"

/-- Network selection of the auto-detect `main`:
`networkArg || process.env.MINA_NETWORK || 'local'`. -/
def pickNetwork (argv : List String) (env : MainEnv) : String :=
  match argv.find? (fun a => mainNetworkNames.contains a) with
  | some n => n
  | none => (envTruthy env.minaNetwork).getD "local"

/-- One record of the `NetworkConfig` class table. -/
structure MinaNetworkConfig where
  networkId : String
  name : String
  rpcUrl : String
  explorerUrl : String
  faucetUrl : Option String
  chainId : String
  accountManagerUrl : Option String
deriving DecidableEq

/-- The `NetworkConfig` constructor table: the four deployment tiers.
Only `mainnet` declares no faucet URL. -/
def networkConfigs : List (String × MinaNetworkConfig) :=
  [("local",
    { networkId := "local", name := "Local Development",
      rpcUrl := "http://localhost:8080/graphql",
      explorerUrl := "http://localhost:8080",
      faucetUrl := some "http://localhost:8080/faucet",
      chainId := "local", accountManagerUrl := some "http://localhost:8181" }),
   ("devnet",
    { networkId := "devnet", name := "Mina Devnet",
      rpcUrl := "https://api.minascan.io/node/devnet/v1/graphql",
      explorerUrl := "https://devnet.minaexplorer.com",
      faucetUrl := some "https://faucet.minaprotocol.com",
      chainId := "devnet", accountManagerUrl := some "https://devnet.minaprotocol.com" }),
   ("testnet",
    { networkId := "testnet", name := "Mina Testnet (Berkeley)",
      rpcUrl := "https://api.minascan.io/node/berkeley/v1/graphql",
      explorerUrl := "https://berkeley.minaexplorer.com",
      faucetUrl := some "https://faucet.minaprotocol.com",
      chainId := "berkeley", accountManagerUrl := some "https://berkeley.minaprotocol.com" }),
   ("mainnet",
    { networkId := "mainnet", name := "Mina Mainnet",
      rpcUrl := "https://api.minascan.io/node/mainnet/v1/graphql",
      explorerUrl := "https://minaexplorer.com",
      faucetUrl := none,
      chainId := "mainnet", accountManagerUrl := some "https://minaprotocol.com" })]

/-- `NetworkConfig.getConfig` (`this.configs[network]`, partial at the
JavaScript level for out-of-enumeration strings). -/
def getConfig (network : String) : Option MinaNetworkConfig :=
  mapLookup networkConfigs network

/-- `NetworkConfig.getNetworkTypes` (`Object.keys(this.configs)`). -/
def getNetworkTypes : List String := networkConfigs.map (·.1)

/-- `NetworkConfig.isValidNetwork` (`network in this.configs`). -/
def isValidNetwork (network : String) : Bool :=
  mapContains networkConfigs network

/-- `NetworkConfig.getDefaultNetwork`. -/
def getDefaultNetwork : String := "testnet"

/-- The mutable fields of the `WalletManager` of
`src/services/wallet/wallet-manager.ts`: the current network name and the
cached config record. This class holds no wallet handle at all. -/
structure WalletManagerState where
  currentNetwork : String
  currentConfig : MinaNetworkConfig
deriving DecidableEq

/-- The `WalletManager` constructor state: default network and its
config. -/
def initialWalletManager : WalletManagerState :=
  { currentNetwork := "testnet",
    currentConfig :=
      { networkId := "testnet", name := "Mina Testnet (Berkeley)",
        rpcUrl := "https://api.minascan.io/node/berkeley/v1/graphql",
        explorerUrl := "https://berkeley.minaexplorer.com",
        faucetUrl := some "https://faucet.minaprotocol.com",
        chainId := "berkeley",
        accountManagerUrl := some "https://berkeley.minaprotocol.com" } }

/-- `WalletManager.switchNetwork`: validate the target against the
enumeration and throw `Invalid network: …` before touching any state;
on success replace both `currentNetwork` and `currentConfig`. The
`.ok s` fallback arm is unreachable (validity implies the config row
exists). -/
def WalletManager.switchNetwork (network : String) (s : WalletManagerState) :
    Except String WalletManagerState :=
  if isValidNetwork network then
    match getConfig network with
    | some cfg => .ok { currentNetwork := network, currentConfig := cfg }
    | none => .ok s
  else
    .error ("Invalid network: " ++ network ++ ". Valid networks: " ++
      String.intercalate ", " getNetworkTypes)

/-- `WalletManager.getCurrentNetwork`. -/
def WalletManager.getCurrentNetwork (s : WalletManagerState) : String :=
  s.currentNetwork

/-- The state observed after a `switchNetwork` call: the new state when
the call returned, the untouched prior state when it threw (the source
throws before any assignment). -/
def stateAfterSwitch (network : String) (s : WalletManagerState) :
    WalletManagerState :=
  match WalletManager.switchNetwork network s with
  | .ok s' => s'
  | .error _ => s

/-- The result record of `WalletManager.getFaucetTokens`. -/
structure FaucetResult where
  success : Bool
  txHash : Option String
  message : String
deriving DecidableEq

/-- `WalletManager.getFaucetTokens`: refuse on mainnet before anything
else, refuse when the current config declares no (or a falsy empty)
faucet URL, otherwise report a mocked successful request. The generated
mock transaction hash is passed in as `freshTxHash` (the source draws it
from `Math.random`); the address argument is only logged. -/
def WalletManager.getFaucetTokens (s : WalletManagerState) (_address : String)
    (freshTxHash : String) : FaucetResult :=
  if s.currentNetwork = "mainnet" then
    { success := false, txHash := none, message := "Faucet not available on mainnet" }
  else
    match s.currentConfig.faucetUrl with
    | none =>
      { success := false, txHash := none,
        message := "Faucet not configured for " ++ s.currentNetwork }
    | some u =>
      if u = "" then
        { success := false, txHash := none,
          message := "Faucet not configured for " ++ s.currentNetwork }
      else
        { success := true, txHash := some freshTxHash,
          message := "Faucet tokens requested successfully on " ++ s.currentNetwork }

/-- One record of the static `MinaNetworkConfig` table of the
`pretmcpservermina` sub-project (`src/services/config/network-config.ts`
there). -/
structure MinaNetworkStaticConfig where
  networkId : String
  graphqlEndpoint : String
  archiveEndpoint : Option String
  explorerUrl : Option String
  faucetUrl : Option String
  chainId : String
  name : String
deriving DecidableEq

/-- The static config table of the `pretmcpservermina` sub-project. -/
def staticNetworkConfigs : List (String × MinaNetworkStaticConfig) :=
  [("local",
    { networkId := "mina:local", graphqlEndpoint := "http://localhost:3085/graphql",
      archiveEndpoint := some "http://localhost:3086",
      explorerUrl := some "http://localhost:3000",
      faucetUrl := some "http://localhost:3085/faucet",
      chainId := "mina:local", name := "Local Network" }),
   ("devnet",
    { networkId := "mina:devnet",
      graphqlEndpoint := "https://api.minascan.io/node/devnet/v1/graphql",
      archiveEndpoint := some "https://api.minascan.io/archive/devnet/v1/graphql",
      explorerUrl := some "https://devnet.minascan.io",
      faucetUrl := some "https://faucet.minaprotocol.com",
      chainId := "mina:devnet", name := "Devnet" }),
   ("testnet",
    { networkId := "mina:testnet",
      graphqlEndpoint := "https://api.minascan.io/node/testnet/v1/graphql",
      archiveEndpoint := some "https://api.minascan.io/archive/testnet/v1/graphql",
      explorerUrl := some "https://testnet.minascan.io",
      faucetUrl := some "https://faucet.minaprotocol.com",
      chainId := "mina:testnet", name := "Testnet" }),
   ("mainnet",
    { networkId := "mina:mainnet",
      graphqlEndpoint := "https://api.minascan.io/node/mainnet/v1/graphql",
      archiveEndpoint := some "https://api.minascan.io/archive/mainnet/v1/graphql",
      explorerUrl := some "https://minascan.io",
      faucetUrl := none,
      chainId := "mina:mainnet", name := "Mainnet" })]

/-- `MinaNetworkConfig.getConfig` (static): throws `Unknown network: …`
for an out-of-enumeration string, modelled as `none` consumed by the
caller's throw. -/
def staticGetConfig (network : String) : Option MinaNetworkStaticConfig :=
  mapLookup staticNetworkConfigs network

/-- The mutable fields of the o1js `WalletManager` of the
`pretmcpservermina` sub-project: private/public key material, current
network (default `'local'`), mock/browser wallet presence and the
initialization flag. Key material is modelled by its Base58 strings. -/
structure MinaWalletState where
  privateKey : Option String
  publicKey : Option String
  currentNetwork : String
  browserWallet : Bool
  isInitialized : Bool
deriving DecidableEq

/-- The o1js `WalletManager.switchNetwork`: look the target up in the
static table (a miss throws and is rethrown by the catch, leaving every
field untouched), point the global Mina instance at the endpoint (an
external o1js effect, not wallet state), and assign `currentNetwork`.
None of the wallet-handle fields are written. -/
def MinaWallet.switchNetwork (network : String) (s : MinaWalletState) :
    Except String MinaWalletState :=
  match staticGetConfig network with
  | none => .error ("Unknown network: " ++ network)
  | some _cfg => .ok { s with currentNetwork := network }

/-! Concrete instances used by witnesses and counterexamples. -/

/-- A tool definition used to exercise duplicate registration. -/
def dupTool : Tool :=
  { name := "wallet_info", description := "Get wallet information", inputSchema := none }

/-- The registry after one registration of `dupTool` (handler tag 1). -/
def regOnce : ToolRegistry Nat := ToolRegistry.registerTool dupTool 1 emptyRegistry

/-- The registry after a second registration of the same name (handler
tag 2). -/
def regTwice : ToolRegistry Nat := ToolRegistry.registerTool dupTool 2 regOnce

/-- A well-formed batch entry. -/
def goodTool : Tool :=
  { name := "test_connection", description := "Test the MCP server connection",
    inputSchema := none }

/-- A batch entry that is invalid by the registry's own `validateTool`
criteria (empty name and description). -/
def badTool : Tool := { name := "", description := "", inputSchema := none }

/-- A bootstrap batch whose second entry is invalid. -/
def bootstrapBatch : List (Tool × Nat) := [(goodTool, 1), (badTool, 2)]

/-! Shared helper lemmas about registration. -/

theorem hasTool_registerTool_self {α : Type} (reg : ToolRegistry α) (t : Tool) (h : α) :
    ToolRegistry.hasTool (ToolRegistry.registerTool t h reg) t.name = true := by
  simpa [ToolRegistry.hasTool, ToolRegistry.registerTool] using
    mapContains_mapSet_self reg.tools t.name _

theorem hasTool_registerTool_of_hasTool {α : Type} (reg : ToolRegistry α)
    (t : Tool) (h : α) (n : String) (hn : ToolRegistry.hasTool reg n = true) :
    ToolRegistry.hasTool (ToolRegistry.registerTool t h reg) n = true := by
  simpa [ToolRegistry.hasTool, ToolRegistry.registerTool] using
    mapContains_mapSet_of_contains reg.tools t.name n _ hn

theorem hasTool_registerTools_of_hasTool {α : Type} (batch : List (Tool × α))
    (reg : ToolRegistry α) (n : String) (hn : ToolRegistry.hasTool reg n = true) :
    ToolRegistry.hasTool (ToolRegistry.registerTools batch reg) n = true := by
  induction batch generalizing reg with
  | nil => simpa [ToolRegistry.registerTools] using hn
  | cons p tl ih =>
    simpa [ToolRegistry.registerTools, List.foldl_cons] using
      ih (ToolRegistry.registerTool p.1 p.2 reg)
        (hasTool_registerTool_of_hasTool reg p.1 p.2 n hn)

theorem sublist_pair_map_filterMap {β γ : Type} (f : String → Option β) (g : β → γ)
    (k : String) (e : β) (hf : f k = some e) (l₁ l₂ : List String) :
    List.Sublist [g e, g e] ((((l₁ ++ k :: l₂) ++ [k]).filterMap f).map g) := by
  rw [List.append_assoc, List.cons_append, List.filterMap_append, List.map_append]
  have h1 : List.filterMap f (k :: (l₂ ++ [k])) = e :: List.filterMap f (l₂ ++ [k]) := by
    simp [List.filterMap_cons, hf]
  have h2 : List.filterMap f (l₂ ++ [k]) = List.filterMap f l₂ ++ [e] := by
    simp [List.filterMap_append, List.filterMap_cons, hf]
  rw [h1, h2, List.map_cons, List.map_append]
  exact List.Sublist.trans
    (List.Sublist.cons₂ (g e) (List.sublist_append_right _ _))
    (List.sublist_append_right _ _)

/-! Claim theorems. -/

/-- C1, counterexample: registering the same name twice is NOT rejected
and silently overwrites the existing handler — after the second
`registerTool` call the entry for `wallet_info` carries handler tag 2,
not the original tag 1, contradicting the claimed `DuplicateToolName`
registration-time failure. -/
theorem registerTool_duplicate_silently_overwrites_cex :
    (ToolRegistry.getTool regOnce "wallet_info").map (·.handler) = some 1 ∧
    (ToolRegistry.getTool regTwice "wallet_info").map (·.handler) = some 2 ∧
    ToolRegistry.getToolCount regTwice = 1 := by
  refine ⟨by decide, by decide, by decide⟩

/-- C1, amended: registering a second tool under an already-registered
name never fails (the method has no failure path); the name map keeps
exactly one entry for the name, but that entry's handler is silently
replaced by the newly supplied one. -/
theorem registerTool_duplicate_overwrites {α : Type} (reg : ToolRegistry α)
    (t : Tool) (h' : α) (hdup : ToolRegistry.hasTool reg t.name = true) :
    ToolRegistry.getTool (ToolRegistry.registerTool t h' reg) t.name =
      some ⟨t.name, h', t⟩ ∧
    ToolRegistry.getToolCount (ToolRegistry.registerTool t h' reg) =
      ToolRegistry.getToolCount reg := by
  constructor
  · simpa [ToolRegistry.getTool, ToolRegistry.registerTool] using
      mapLookup_mapSet_self reg.tools t.name _
  · simpa [ToolRegistry.getToolCount, ToolRegistry.registerTool] using
      length_mapSet_of_contains reg.tools t.name _ hdup

/-- C1, witness: the amended theorem applied to the concrete
one-registration registry. -/
theorem registerTool_duplicate_overwrites_witness :
    ToolRegistry.hasTool regOnce dupTool.name = true ∧
    (ToolRegistry.getTool (ToolRegistry.registerTool dupTool 7 regOnce) dupTool.name =
      some ⟨dupTool.name, 7, dupTool⟩ ∧
     ToolRegistry.getToolCount (ToolRegistry.registerTool dupTool 7 regOnce) =
      ToolRegistry.getToolCount regOnce) :=
  ⟨by decide, registerTool_duplicate_overwrites regOnce dupTool 7 (by decide)⟩

/-- C8, counterexample: `registerTools` on a batch whose second entry is
invalid (empty name, empty description — `validateTool` reports errors
for it) still registers BOTH entries: the catalog afterwards has two
entries, including one under the empty name, so the batch is neither
validated nor rejected atomically. -/
theorem registerTools_not_atomic_cex :
    ToolRegistry.validateTool badTool (emptyRegistry : ToolRegistry Nat) ≠ [] ∧
    ToolRegistry.getToolCount
      (ToolRegistry.registerTools bootstrapBatch (emptyRegistry : ToolRegistry Nat)) = 2 ∧
    ToolRegistry.hasTool
      (ToolRegistry.registerTools bootstrapBatch (emptyRegistry : ToolRegistry Nat)) "" = true ∧
    ToolRegistry.hasTool
      (ToolRegistry.registerTools bootstrapBatch (emptyRegistry : ToolRegistry Nat))
      "test_connection" = true := by
  refine ⟨by decide, by decide, by decide, by decide⟩

/-- C8, amended: batch registration is a plain unconditional loop — every
entry of the batch, valid or not, ends up registered in the catalog; no
entry is ever rejected and no rollback exists. -/
theorem registerTools_registers_every_entry {α : Type} (batch : List (Tool × α))
    (reg : ToolRegistry α) (t : Tool) (h : α) (hmem : (t, h) ∈ batch) :
    ToolRegistry.hasTool (ToolRegistry.registerTools batch reg) t.name = true := by
  induction batch generalizing reg with
  | nil => cases hmem
  | cons p tl ih =>
    obtain ⟨t₀, h₀⟩ := p
    rcases List.mem_cons.mp hmem with hhd | htl
    · injection hhd with h1 h2
      subst h1
      subst h2
      simpa [ToolRegistry.registerTools, List.foldl_cons] using
        hasTool_registerTools_of_hasTool tl (ToolRegistry.registerTool t h reg)
          t.name (hasTool_registerTool_self reg t h)
    · simpa [ToolRegistry.registerTools, List.foldl_cons] using
        ih (ToolRegistry.registerTool t₀ h₀ reg) htl

/-- C8, witness: the amended theorem applied to the concrete bootstrap
batch and its invalid entry. -/
theorem registerTools_registers_every_entry_witness :
    (badTool, 2) ∈ bootstrapBatch ∧
    ToolRegistry.hasTool
      (ToolRegistry.registerTools bootstrapBatch (emptyRegistry : ToolRegistry Nat))
      badTool.name = true :=
  ⟨List.Mem.tail _ (List.Mem.head _),
   registerTools_registers_every_entry bootstrapBatch emptyRegistry badTool 2
     (List.Mem.tail _ (List.Mem.head _))⟩

/-- C9: after a duplicate `registerTool` the name map and the category
index disagree — the tool count is unchanged (the name-map entry was
replaced in place) while the category bucket got the name appended a
second time, so `getToolsByCategory` returns the tool's definition
twice. -/
theorem registerTool_duplicate_category_inconsistency {α : Type}
    (reg : ToolRegistry α) (t : Tool) (h' : α) (l : List String)
    (hdup : ToolRegistry.hasTool reg t.name = true)
    (hcat : mapLookup reg.categories (extractCategory t.name) = some l)
    (hmem : t.name ∈ l) :
    ToolRegistry.getToolCount (ToolRegistry.registerTool t h' reg) =
      ToolRegistry.getToolCount reg ∧
    mapLookup (ToolRegistry.registerTool t h' reg).categories
      (extractCategory t.name) = some (l ++ [t.name]) ∧
    List.Sublist [t, t]
      (ToolRegistry.getToolsByCategory (ToolRegistry.registerTool t h' reg)
        (extractCategory t.name)) := by
  have hcontains : mapContains reg.categories (extractCategory t.name) = true := by
    simp [mapContains, hcat]
  have hcats : (ToolRegistry.registerTool t h' reg).categories =
      mapPush reg.categories (extractCategory t.name) t.name := by
    simp [ToolRegistry.registerTool, hcontains]
  have hcatlookup : mapLookup (ToolRegistry.registerTool t h' reg).categories
      (extractCategory t.name) = some (l ++ [t.name]) := by
    rw [hcats]
    exact mapLookup_mapPush_self reg.categories (extractCategory t.name) t.name l hcat
  refine ⟨?_, hcatlookup, ?_⟩
  · simpa [ToolRegistry.getToolCount, ToolRegistry.registerTool] using
      length_mapSet_of_contains reg.tools t.name _ hdup
  · obtain ⟨l₁, l₂, rfl⟩ := List.append_of_mem hmem
    have htools : (ToolRegistry.registerTool t h' reg).tools =
        mapSet reg.tools t.name ⟨t.name, h', t⟩ := by
      simp [ToolRegistry.registerTool]
    have hlookup : mapLookup (ToolRegistry.registerTool t h' reg).tools t.name =
        some ⟨t.name, h', t⟩ := by
      rw [htools]
      exact mapLookup_mapSet_self reg.tools t.name _
    have := sublist_pair_map_filterMap
      (fun n => mapLookup (ToolRegistry.registerTool t h' reg).tools n)
      (fun e => e.tool) t.name ⟨t.name, h', t⟩ hlookup l₁ l₂
    simpa [ToolRegistry.getToolsByCategory, hcatlookup] using this

/-- C9, witness: the inconsistency theorem applied to the concrete
one-registration registry (category `wallet`, bucket
`["wallet_info"]`). -/
theorem registerTool_duplicate_category_inconsistency_witness :
    ToolRegistry.hasTool regOnce dupTool.name = true ∧
    mapLookup regOnce.categories (extractCategory dupTool.name) = some ["wallet_info"] ∧
    dupTool.name ∈ ["wallet_info"] ∧
    (ToolRegistry.getToolCount (ToolRegistry.registerTool dupTool 2 regOnce) =
      ToolRegistry.getToolCount regOnce ∧
     mapLookup (ToolRegistry.registerTool dupTool 2 regOnce).categories
      (extractCategory dupTool.name) = some (["wallet_info"] ++ [dupTool.name]) ∧
     List.Sublist [dupTool, dupTool]
      (ToolRegistry.getToolsByCategory (ToolRegistry.registerTool dupTool 2 regOnce)
        (extractCategory dupTool.name))) := by
  refine ⟨by decide, by simp [regOnce, dupTool, ToolRegistry.registerTool,
    emptyRegistry, extractCategory, mapContains, mapLookup, mapSet, mapPush], by decide, ?_⟩
  exact registerTool_duplicate_category_inconsistency regOnce dupTool 2 ["wallet_info"]
    (by decide)
    (by simp [regOnce, dupTool, ToolRegistry.registerTool, emptyRegistry,
      extractCategory, mapContains, mapLookup, mapSet, mapPush])
    (by decide)

/-! Concrete dispatch instances. -/

/-- An empty group chain: no handler group owns any name. -/
def missGroups : List (ToolGroup Nat) := []

/-- A chain whose only handler throws an error whose message happens to
match the dispatcher's own unknown-tool message. -/
def faultGroups : List (ToolGroup Nat) :=
  [[("wallet_info", fun _ st =>
      .thr { message := "Unknown tool: wallet_info",
             stack := "at handleToolCall (build/server/zkpret-mcp-server.js:268:15)" } st)]]

/-- A chain whose only handler returns, as a handler-reported failure,
the very envelope the dispatcher produces for an unknown tool. -/
def domainGroups : List (ToolGroup Nat) :=
  [[("wallet_info", fun _ st =>
      .ret (errorEnvelope "wallet_info" "Unknown tool: wallet_info") st)]]

/-- The chain holding the modelled `contract_deploy` handler. -/
def deployGroups : List (ToolGroup Nat) := [[("contract_deploy", deployHandler)]]

/-- A chain whose handler throws a fault carrying a stack trace. -/
def faultingGroups : List (ToolGroup Nat) :=
  [[("utility_generate_proof", fun _ st =>
      .thr { message := "boom",
             stack := "Error: boom at Object.handler (build/server/tool-handlers/utility-tools.js:91:11)" } st)]]

/-- A chain whose handler reports, as a domain failure, the very envelope
the dispatcher builds when a handler faults with message `boom`. -/
def domainFailureGroups : List (ToolGroup Nat) :=
  [[("utility_generate_proof", fun _ st =>
      .ret { content := ["Error executing utility_generate_proof: boom"], isError := true } st)]]

/-- C2, counterexample: the unknown-tool response is NOT a distinguishable
protocol-failure shape — dispatching the unregistered name `wallet_info`
produces exactly the same `CallToolResult` value as (a) a registered
handler that throws a fault with that message and (b) a registered
handler that returns the same envelope as a handler-reported failure.
The catalog-and-context-unchanged half does hold (state stays 7 and no
handler runs on the miss), but the envelope has only `isError`, no
`errorKind`. -/
theorem unknownTool_envelope_indistinguishable_cex :
    (handleToolCall missGroups "wallet_info" (JVal.obj []) 7).result =
      (handleToolCall faultGroups "wallet_info" (JVal.obj []) 7).result ∧
    (handleToolCall missGroups "wallet_info" (JVal.obj []) 7).result =
      (handleToolCall domainGroups "wallet_info" (JVal.obj []) 7).result ∧
    (handleToolCall missGroups "wallet_info" (JVal.obj []) 7).handlerRan = false ∧
    (handleToolCall faultGroups "wallet_info" (JVal.obj []) 7).handlerRan = true ∧
    (handleToolCall domainGroups "wallet_info" (JVal.obj []) 7).handlerRan = true ∧
    (handleToolCall missGroups "wallet_info" (JVal.obj []) 7).state = 7 ∧
    (handleToolCall missGroups "wallet_info" (JVal.obj []) 7).result.isError = true := by
  refine ⟨by decide, by decide, by decide, by decide, by decide, by decide, by decide⟩

/-- C2, amended: dispatching a name no handler group owns runs no handler,
leaves the shared context unchanged, and returns the catch-all envelope
`{content: ['Error executing <n>: Unknown tool: <n>'], isError: true}` —
an `isError` envelope with no protocol-level `errorKind` discriminator. -/
theorem handleToolCall_unknown_tool {σ : Type} (gs : List (ToolGroup σ))
    (name : String) (args : JVal) (st : σ) (hmiss : findGroup gs name = none) :
    handleToolCall gs name args st =
      ⟨errorEnvelope name ("Unknown tool: " ++ name), st, false⟩ ∧
    (errorEnvelope name ("Unknown tool: " ++ name)).isError = true := by
  constructor
  · simp [handleToolCall, hmiss]
  · rfl

/-- C2, witness: the unknown-tool theorem at the empty chain. -/
theorem handleToolCall_unknown_tool_witness :
    findGroup missGroups "wallet_info" = none ∧
    (handleToolCall missGroups "wallet_info" (JVal.obj []) 7 =
      ⟨errorEnvelope "wallet_info" ("Unknown tool: " ++ "wallet_info"), 7, false⟩ ∧
     (errorEnvelope "wallet_info" ("Unknown tool: " ++ "wallet_info")).isError = true) :=
  ⟨rfl, handleToolCall_unknown_tool missGroups "wallet_info" (JVal.obj []) 7 rfl⟩

/-- C3, counterexample: an argument object violating the declared input
shape of `contract_deploy` (the empty object misses the required
`contractType` and `network` fields) DOES reach the handler — the handler
body runs (`handlerRan = true`) and performs the schema validation
itself, returning a handler-level error envelope. -/
theorem schema_violation_reaches_handler_cex :
    deploySchemaOk (JVal.obj []) = false ∧
    (handleToolCall deployGroups "contract_deploy" (JVal.obj []) 0).handlerRan = true ∧
    (handleToolCall deployGroups "contract_deploy" (JVal.obj []) 0).result.isError = true := by
  refine ⟨by decide, by decide, by decide⟩

/-- C3, amended: catalog lookup (the `hasTool` chain) does complete
before any handler code runs — an unknown name never reaches a handler —
but input-shape validation is NOT performed by the dispatcher: it happens
inside the handler bodies, so schema-violating arguments do reach the
handler, which validates them itself and reports the violation as an
error envelope. -/
theorem lookup_before_handler_validation_inside :
    (∀ (σ : Type) (gs : List (ToolGroup σ)) (name : String) (args : JVal) (st : σ),
      findGroup gs name = none → (handleToolCall gs name args st).handlerRan = false) ∧
    (∀ (args : JVal) (st : Nat), deploySchemaOk args = false →
      (handleToolCall deployGroups "contract_deploy" args st).handlerRan = true ∧
      (handleToolCall deployGroups "contract_deploy" args st).result.isError = true) := by
  constructor
  · intro σ gs name args st hmiss
    simp [handleToolCall, hmiss]
  · intro args st hbad
    constructor
    · simp [handleToolCall, findGroup, deployGroups, ToolGroup.hasTool,
        mapContains, mapLookup, deployHandler, hbad]
    · simp [handleToolCall, findGroup, deployGroups, ToolGroup.hasTool,
        mapContains, mapLookup, deployHandler, hbad]

/-- C3, witness: both halves of the amended ordering theorem at concrete
inputs. -/
theorem lookup_before_handler_validation_inside_witness :
    (findGroup missGroups "contract_deploy" = none ∧
     (handleToolCall missGroups "contract_deploy" (JVal.obj []) 5).handlerRan = false) ∧
    (deploySchemaOk (JVal.obj [("contractType", JVal.num 3)]) = false ∧
     (handleToolCall deployGroups "contract_deploy"
        (JVal.obj [("contractType", JVal.num 3)]) 5).handlerRan = true ∧
     (handleToolCall deployGroups "contract_deploy"
        (JVal.obj [("contractType", JVal.num 3)]) 5).result.isError = true) :=
  ⟨⟨rfl, lookup_before_handler_validation_inside.1 Nat missGroups
      "contract_deploy" (JVal.obj []) 5 rfl⟩,
   ⟨rfl, lookup_before_handler_validation_inside.2
      (JVal.obj [("contractType", JVal.num 3)]) 5 rfl⟩⟩

/-- C7, counterexample: a handler fault is surfaced with NO
`InternalFault` kind — the envelope built for the thrown fault `boom` is
literally the same `CallToolResult` value a handler can (and here does)
return as a handler-reported domain failure, so the two are not
distinguishable at the transport boundary. The fault's stack text does
not appear in the envelope, but neither does any fault discriminator. -/
theorem internal_fault_envelope_indistinguishable_cex :
    (handleToolCall faultingGroups "utility_generate_proof" JVal.null 0).result =
      { content := ["Error executing utility_generate_proof: boom"], isError := true } ∧
    (handleToolCall faultingGroups "utility_generate_proof" JVal.null 0).result =
      (handleToolCall domainFailureGroups "utility_generate_proof" JVal.null 0).result := by
  refine ⟨by decide, by decide⟩

/-- C7, amended: an unexpected handler fault is caught at the dispatcher
boundary and surfaced as the `isError` envelope whose text is
`Error executing <name>: ` followed by the fault's message only — the
envelope is a function of the message alone, so the fault's stack text
never crosses the boundary; there is no distinct `InternalFault`
discriminator. -/
theorem handler_fault_caught_message_only {σ : Type} (gs : List (ToolGroup σ))
    (g : ToolGroup σ) (name : String) (args : JVal) (st st' : σ)
    (h : Handler σ) (f : Fault) (hfind : findGroup gs name = some g)
    (hlook : mapLookup g name = some h) (hthr : h args st = .thr f st') :
    handleToolCall gs name args st = ⟨errorEnvelope name f.message, st', true⟩ := by
  simp [handleToolCall, hfind, hlook, hthr]

/-- C7, witness: the fault-redaction theorem at the concrete throwing
handler (whose fault carries a stack trace that provably does not reach
the envelope). -/
theorem handler_fault_caught_message_only_witness :
    handleToolCall faultingGroups "utility_generate_proof" JVal.null 4 =
      ⟨errorEnvelope "utility_generate_proof" "boom", 4, true⟩ :=
  handler_fault_caught_message_only faultingGroups
    [("utility_generate_proof", fun _ st =>
      .thr { message := "boom",
             stack := "Error: boom at Object.handler (build/server/tool-handlers/utility-tools.js:91:11)" } st)]
    "utility_generate_proof" JVal.null 4 4 _
    { message := "boom",
      stack := "Error: boom at Object.handler (build/server/tool-handlers/utility-tools.js:91:11)" }
    rfl rfl rfl

/-- C4: for every network in the enumeration, switching succeeds and the
current network then reads back as that network; for every name outside
the enumeration, switching throws (`Invalid network: …`) and the observed
state is the untouched prior state; and the current network never leaves
the enumeration. -/
theorem switchNetwork_roundtrip_and_unknown_rejected :
    (∀ (n : String) (s : WalletManagerState), n ∈ getNetworkTypes →
      ∃ s', WalletManager.switchNetwork n s = .ok s' ∧
        WalletManager.getCurrentNetwork s' = n) ∧
    (∀ (n : String) (s : WalletManagerState), n ∉ getNetworkTypes →
      (∃ msg, WalletManager.switchNetwork n s = .error msg) ∧
        stateAfterSwitch n s = s) ∧
    (∀ (n : String) (s : WalletManagerState),
      isValidNetwork s.currentNetwork = true →
      isValidNetwork (stateAfterSwitch n s).currentNetwork = true) := by
  refine ⟨?_, ?_, ?_⟩
  · intro n s hmem
    have hv : isValidNetwork n = true :=
      (mapContains_iff_mem_keys networkConfigs n).mpr hmem
    have hsome : (getConfig n).isSome = true := hv
    obtain ⟨cfg, hcfg⟩ := Option.isSome_iff_exists.mp hsome
    refine ⟨{ currentNetwork := n, currentConfig := cfg }, ?_, rfl⟩
    simp [WalletManager.switchNetwork, hv, hcfg]
  · intro n s hmem
    have hv : isValidNetwork n = false := by
      rcases Bool.eq_false_or_eq_true (isValidNetwork n) with h | h
      · exact absurd ((mapContains_iff_mem_keys networkConfigs n).mp h) hmem
      · exact h
    constructor
    · exact ⟨"Invalid network: " ++ n ++ ". Valid networks: " ++
        String.intercalate ", " getNetworkTypes,
        by simp [WalletManager.switchNetwork, hv]⟩
    · simp [stateAfterSwitch, WalletManager.switchNetwork, hv]
  · intro n s hs
    rcases hb : isValidNetwork n with hfalse | htrue
    · simpa [stateAfterSwitch, WalletManager.switchNetwork, hb] using hs
    · have hsome : (getConfig n).isSome = true := hb
      obtain ⟨cfg, hcfg⟩ := Option.isSome_iff_exists.mp hsome
      simp [stateAfterSwitch, WalletManager.switchNetwork, hb, hcfg]

/-- C4, witness: round trip at `mainnet` from the constructor state, and
rejection of the out-of-enumeration name `berkeley`. -/
theorem switchNetwork_roundtrip_and_unknown_rejected_witness :
    ("mainnet" ∈ getNetworkTypes ∧
      ∃ s', WalletManager.switchNetwork "mainnet" initialWalletManager = .ok s' ∧
        WalletManager.getCurrentNetwork s' = "mainnet") ∧
    ("berkeley" ∉ getNetworkTypes ∧
      (∃ msg, WalletManager.switchNetwork "berkeley" initialWalletManager = .error msg) ∧
      stateAfterSwitch "berkeley" initialWalletManager = initialWalletManager) ∧
    (isValidNetwork initialWalletManager.currentNetwork = true ∧
      isValidNetwork (stateAfterSwitch "devnet" initialWalletManager).currentNetwork = true) :=
  ⟨⟨by decide, switchNetwork_roundtrip_and_unknown_rejected.1 "mainnet"
      initialWalletManager (by decide)⟩,
   ⟨by decide, switchNetwork_roundtrip_and_unknown_rejected.2.1 "berkeley"
      initialWalletManager (by decide)⟩,
   ⟨by decide, switchNetwork_roundtrip_and_unknown_rejected.2.2 "devnet"
      initialWalletManager (by decide)⟩⟩

/-- A wallet-manager state of the `pretmcpservermina` sub-project with a
private-key wallet attached on the `local` network. -/
def attachedWallet : MinaWalletState :=
  { privateKey := some "EKEQtA8bHPUZ8SmQKJLhZNKVLQhfCCKGdKNGWE8Z5QJuBgNnJ7tW",
    publicKey := some "B62qmQsEHcsPUS1FepURjsxhLdiwiZV1FXBYHxSoCGdzGJ5t14u5VK2",
    currentNetwork := "local", browserWallet := true, isInitialized := true }

/-- C5, counterexample: switching the wallet manager from `local` (with
key material attached and no devnet wallet anywhere in the state) to
`devnet` succeeds and RETAINS the wallet handle — `privateKey` and
`publicKey` are still present after the switch, contradicting the
claimed clearing of the network-scoped handle. -/
theorem minaSwitchNetwork_keeps_wallet_cex :
    MinaWallet.switchNetwork "devnet" attachedWallet =
      .ok { attachedWallet with currentNetwork := "devnet" } ∧
    ({ attachedWallet with currentNetwork := "devnet" } : MinaWalletState).privateKey ≠ none ∧
    ({ attachedWallet with currentNetwork := "devnet" } : MinaWalletState).publicKey ≠ none ∧
    attachedWallet.currentNetwork ≠ "devnet" := by
  refine ⟨rfl, by decide, by decide, by decide⟩

/-- C5, amended: a successful `switchNetwork` changes only
`currentNetwork`; the active wallet handle (private key, public key,
browser wallet) is carried over unchanged to the new network — handles
are not network-scoped in the code and are never cleared by a switch. -/
theorem minaSwitchNetwork_retains_wallet (network : String)
    (s s' : MinaWalletState) (hok : MinaWallet.switchNetwork network s = .ok s') :
    s' = { s with currentNetwork := network } ∧
    s'.privateKey = s.privateKey ∧ s'.publicKey = s.publicKey ∧
    s'.browserWallet = s.browserWallet := by
  unfold MinaWallet.switchNetwork at hok
  cases hcfg : staticGetConfig network with
  | none => rw [hcfg] at hok; cases hok
  | some cfg =>
    rw [hcfg] at hok
    injection hok with hok
    subst hok
    exact ⟨rfl, rfl, rfl, rfl⟩

/-- C5, witness: the retention theorem at the attached-wallet state. -/
theorem minaSwitchNetwork_retains_wallet_witness :
    MinaWallet.switchNetwork "devnet" attachedWallet =
      .ok { attachedWallet with currentNetwork := "devnet" } ∧
    (({ attachedWallet with currentNetwork := "devnet" } : MinaWalletState) =
        { attachedWallet with currentNetwork := "devnet" } ∧
      ({ attachedWallet with currentNetwork := "devnet" } : MinaWalletState).privateKey =
        attachedWallet.privateKey ∧
      ({ attachedWallet with currentNetwork := "devnet" } : MinaWalletState).publicKey =
        attachedWallet.publicKey ∧
      ({ attachedWallet with currentNetwork := "devnet" } : MinaWalletState).browserWallet =
        attachedWallet.browserWallet) :=
  ⟨rfl, minaSwitchNetwork_retains_wallet "devnet" attachedWallet
    { attachedWallet with currentNetwork := "devnet" } rfl⟩

/-- C10: `getFaucetTokens` on mainnet refuses with exactly
`Faucet not available on mainnet` and no transaction hash (no request is
made — the guard returns before the request branch), and a successful
result is only possible off mainnet with a declared, non-empty faucet
URL in the current network's configuration. -/
theorem getFaucetTokens_mainnet_guard :
    (∀ (s : WalletManagerState) (a h : String), s.currentNetwork = "mainnet" →
      WalletManager.getFaucetTokens s a h =
        { success := false, txHash := none,
          message := "Faucet not available on mainnet" }) ∧
    (∀ (s : WalletManagerState) (a h : String),
      (WalletManager.getFaucetTokens s a h).success = true →
      s.currentNetwork ≠ "mainnet" ∧
        ∃ u, s.currentConfig.faucetUrl = some u ∧ u ≠ "") := by
  constructor
  · intro s a h hmain
    simp [WalletManager.getFaucetTokens, hmain]
  · intro s a h hsucc
    unfold WalletManager.getFaucetTokens at hsucc
    by_cases hmain : s.currentNetwork = "mainnet"
    · rw [if_pos hmain] at hsucc
      simp at hsucc
    · rw [if_neg hmain] at hsucc
      refine ⟨hmain, ?_⟩
      cases hu : s.currentConfig.faucetUrl with
      | none => rw [hu] at hsucc; simp at hsucc
      | some u =>
        rw [hu] at hsucc
        by_cases hemp : u = ""
        · simp [hemp] at hsucc
        · exact ⟨u, rfl, hemp⟩

/-- A wallet-manager state on mainnet (current config is the mainnet
row, which declares no faucet URL). -/
def mainnetWalletManager : WalletManagerState :=
  { currentNetwork := "mainnet",
    currentConfig :=
      { networkId := "mainnet", name := "Mina Mainnet",
        rpcUrl := "https://api.minascan.io/node/mainnet/v1/graphql",
        explorerUrl := "https://minaexplorer.com",
        faucetUrl := none,
        chainId := "mainnet", accountManagerUrl := some "https://minaprotocol.com" } }

/-- C10, witness: the mainnet refusal at a concrete mainnet state, and
the success characterization at the constructor (testnet) state, whose
faucet request succeeds. -/
theorem getFaucetTokens_mainnet_guard_witness :
    (mainnetWalletManager.currentNetwork = "mainnet" ∧
      WalletManager.getFaucetTokens mainnetWalletManager
          "B62qmQsEHcsPUS1FepURjsxhLdiwiZV1FXBYHxSoCGdzGJ5t14u5VK2" "5Jmockhash" =
        { success := false, txHash := none,
          message := "Faucet not available on mainnet" }) ∧
    ((WalletManager.getFaucetTokens initialWalletManager
        "B62qmQsEHcsPUS1FepURjsxhLdiwiZV1FXBYHxSoCGdzGJ5t14u5VK2" "5Jmockhash").success = true ∧
      initialWalletManager.currentNetwork ≠ "mainnet" ∧
        ∃ u, initialWalletManager.currentConfig.faucetUrl = some u ∧ u ≠ "") :=
  ⟨⟨rfl, getFaucetTokens_mainnet_guard.1 mainnetWalletManager
      "B62qmQsEHcsPUS1FepURjsxhLdiwiZV1FXBYHxSoCGdzGJ5t14u5VK2" "5Jmockhash" rfl⟩,
   ⟨by decide, getFaucetTokens_mainnet_guard.2 initialWalletManager
      "B62qmQsEHcsPUS1FepURjsxhLdiwiZV1FXBYHxSoCGdzGJ5t14u5VK2" "5Jmockhash" (by decide)⟩⟩

/-- An environment where `MCP_SERVER_MODE` disagrees with the CLI
`--mode` flag. -/
def envPrecedenceEnv : CliEnv :=
  { mcpServerMode := some "stdio", portVar := none, logLevel := none }

/-- C6, counterexample: starting with CLI flag `--mode sse` while
`MCP_SERVER_MODE=stdio` is set yields mode `stdio` — the environment
value, not the CLI value, because `parseArgs` applies its environment
override block AFTER the flag loop. -/
theorem cli_env_precedence_cex :
    (parseArgs ["--mode", "sse"] envPrecedenceEnv).map (·.mode) = some "stdio" ∧
    ("sse" : String) ≠ "stdio" := by
  refine ⟨by decide, by decide⟩

/-- C6, amended: in the `parseArgs` entry point the environment wins when
both sources supply a value — a valid `MCP_SERVER_MODE` fixes the final
mode, a valid `LOG_LEVEL` fixes the final log level, and a `PORT` that
parses to a nonzero number fixes the final port, each regardless of any
CLI flags (`host` has no environment override); in the auto-detect entry
point, by contrast, a positional CLI transport or network selector takes
precedence over the environment. -/
theorem env_overrides_cli_in_parseArgs :
    (∀ (argv : List String) (env : CliEnv) (c : ServerConfig) (m : String),
      envTruthy env.mcpServerMode = some m → (m = "stdio" ∨ m = "sse") →
      parseArgs argv env = some c → c.mode = m) ∧
    (∀ (argv : List String) (env : CliEnv) (c : ServerConfig) (l : String),
      envTruthy env.logLevel = some l → validLogLevels.contains l = true →
      parseArgs argv env = some c → c.logLevel = l) ∧
    (∀ (argv : List String) (env : CliEnv) (c : ServerConfig) (p : String) (n : Nat),
      envTruthy env.portVar = some p → jsParseIntNat p = some n → n ≠ 0 →
      parseArgs argv env = some c → c.port = n) ∧
    (∀ (argv : List String) (env : MainEnv) (isTTY : Bool) (t : String),
      argv.find? (fun a => a = "stdio" || a = "sse") = some t →
      pickTransport argv env isTTY = t) ∧
    (∀ (argv : List String) (env : MainEnv) (n : String),
      argv.find? (fun a => mainNetworkNames.contains a) = some n →
      pickNetwork argv env = n) := by
  refine ⟨?_, ?_, ?_, ?_, ?_⟩
  · intro argv env c m hm hvalid hp
    obtain ⟨c0, _, rfl⟩ := Option.map_eq_some'.mp hp
    have hif : (m = "stdio" || m = "sse") = true := by
      rcases hvalid with h | h <;> simp [h]
    simp only [applyEnvOverrides, hm, hif, if_true]
    cases envTruthy env.portVar <;> cases envTruthy env.logLevel <;>
      simp [apply_ite]
  · intro argv env c l hl hvalid hp
    obtain ⟨c0, _, rfl⟩ := Option.map_eq_some'.mp hp
    have hmem : l ∈ validLogLevels := by simpa using hvalid
    simp [applyEnvOverrides, hl, hmem]
  · intro argv env c p n hp hn hnz hmap
    obtain ⟨c0, _, rfl⟩ := Option.map_eq_some'.mp hmap
    simp only [applyEnvOverrides, hp, hn]
    cases envTruthy env.mcpServerMode <;> cases envTruthy env.logLevel <;>
      simp [hnz, apply_ite]
  · intro argv env isTTY t hfind
    unfold pickTransport
    rw [hfind]
  · intro argv env n hfind
    unfold pickNetwork
    rw [hfind]

/-- C6, witness: every part of the precedence theorem at concrete
inputs. -/
theorem env_overrides_cli_in_parseArgs_witness :
    (envTruthy envPrecedenceEnv.mcpServerMode = some "stdio" ∧
      ("stdio" = "stdio" ∨ "stdio" = "sse") ∧
      parseArgs ["--mode", "sse"] envPrecedenceEnv =
        some { mode := "stdio", port := 3000, host := "localhost", logLevel := "info" } ∧
      ({ mode := "stdio", port := 3000, host := "localhost",
         logLevel := "info" } : ServerConfig).mode = "stdio") ∧
    (envTruthy (some "debug") = some "debug" ∧
      validLogLevels.contains "debug" = true ∧
      parseArgs ["--log-level", "warn"]
        { mcpServerMode := none, portVar := none, logLevel := some "debug" } =
        some { mode := "stdio", port := 3000, host := "localhost", logLevel := "debug" } ∧
      ({ mode := "stdio", port := 3000, host := "localhost",
         logLevel := "debug" } : ServerConfig).logLevel = "debug") ∧
    (envTruthy (some "8080") = some "8080" ∧
      jsParseIntNat "8080" = some 8080 ∧ (8080 : Nat) ≠ 0 ∧
      parseArgs ["--port", "4000"]
        { mcpServerMode := none, portVar := some "8080", logLevel := none } =
        some { mode := "stdio", port := 8080, host := "localhost", logLevel := "info" } ∧
      ({ mode := "stdio", port := 8080, host := "localhost",
         logLevel := "info" } : ServerConfig).port = 8080) ∧
    (["sse", "devnet"].find? (fun a => a = "stdio" || a = "sse") = some "sse" ∧
      pickTransport ["sse", "devnet"]
        { mcpTransport := some "stdio", minaNetwork := none } true = "sse") ∧
    (["sse", "devnet"].find? (fun a => mainNetworkNames.contains a) = some "devnet" ∧
      pickNetwork ["sse", "devnet"]
        { mcpTransport := none, minaNetwork := some "mainnet" } = "devnet") :=
  ⟨⟨by decide, Or.inl rfl, by decide,
     env_overrides_cli_in_parseArgs.1 ["--mode", "sse"] envPrecedenceEnv
       { mode := "stdio", port := 3000, host := "localhost", logLevel := "info" }
       "stdio" (by decide) (Or.inl rfl) (by decide)⟩,
   ⟨by decide, by decide, by decide,
     env_overrides_cli_in_parseArgs.2.1 ["--log-level", "warn"]
       { mcpServerMode := none, portVar := none, logLevel := some "debug" }
       { mode := "stdio", port := 3000, host := "localhost", logLevel := "debug" }
       "debug" (by decide) (by decide) (by decide)⟩,
   ⟨by decide, by decide, by decide, by decide,
     env_overrides_cli_in_parseArgs.2.2.1 ["--port", "4000"]
       { mcpServerMode := none, portVar := some "8080", logLevel := none }
       { mode := "stdio", port := 8080, host := "localhost", logLevel := "info" }
       "8080" 8080 (by decide) (by decide) (by decide) (by decide)⟩,
   ⟨by decide,
     env_overrides_cli_in_parseArgs.2.2.2.1 ["sse", "devnet"]
       { mcpTransport := some "stdio", minaNetwork := none } true "sse" (by decide)⟩,
   ⟨by decide,
     env_overrides_cli_in_parseArgs.2.2.2.2 ["sse", "devnet"]
       { mcpTransport := none, minaNetwork := some "mainnet" } "devnet" (by decide)⟩⟩

end ZkPret
